import Mathlib

/-!
Verification of the Pomodoro timer component (`src/pomodoro-timer.jsx`).

The component's state-machine, clock and persistence logic is embedded
shallowly: React `useState`/`useRef` cells become fields of `TimerState`,
wall-clock instants (`Date.now()` divided by 1000) become rationals, and the
browser's timer registry for the bell manager becomes an explicit multiset of
live handles.  Each definition mirrors the lines of the source file it is
named after.
-/

set_option autoImplicit false

namespace Pomodoro

/-- The three countdown modes (`MODES` keys, line 15-19). -/
inductive Mode
  | focus
  | short
  | long
deriving DecidableEq

/-- Per-mode configuration record (`MODES` values, line 15-19); `color` is
presentation-only and omitted. -/
structure ModeConfig where
  label : String
  duration : Nat
deriving DecidableEq

/-- The `MODES` table (line 15-19): focus 25*60 s, short break 5*60 s,
long break 15*60 s. -/
def MODES : Mode → ModeConfig
  | .focus => ⟨"FOCUS", 25 * 60⟩
  | .short => ⟨"SHORT BREAK", 5 * 60⟩
  | .long => ⟨"LONG BREAK", 15 * 60⟩

/-- The component's live state (lines 97-108): the `useState` cells `mode`,
`timeLeft`, `running`, `sessions`, `dailySessions` and the `useRef` cells
`startedAtRef` / `remainingAtStart`.  Timestamps are rationals measured in
seconds (the source holds milliseconds from `Date.now()` and divides by 1000
before use); `timeLeft` is always an integer number of seconds because it is
only ever set to a duration, to `Math.ceil` of a remaining time, or to 0. -/
structure TimerState where
  mode : Mode
  timeLeft : Nat
  running : Bool
  startedAt : Option ℚ
  remainingAtStart : Option Nat
  sessions : Nat
  dailySessions : Nat
deriving DecidableEq

/-- Initial state (lines 97-107): focus mode, full duration, not running,
no anchor, zero counters. -/
def initState : TimerState :=
  { mode := .focus
    timeLeft := (MODES .focus).duration
    running := false
    startedAt := none
    remainingAtStart := none
    sessions := 0
    dailySessions := 0 }

/-- The drift-corrected remaining time (lines 178-179 and 200-201):
`Math.max(remainingAtStart - (now - startedAt), 0)`. -/
def remainingAt (t0 : ℚ) (r0 : Nat) (now : ℚ) : ℚ :=
  max ((r0 : ℚ) - (now - t0)) 0

/-- Embedding of `finishSession` (lines 136-157): stop running, clear `startedAtRef`
(note: the source never clears `remainingAtStart`); on focus expiry increment
both counters and switch to the short break, on break expiry switch back to
focus; either way load the new mode's full duration.  The bell trigger and
the persistence write are side effects modelled separately
(`finishSessionStore`). -/
def finishSession (s : TimerState) : TimerState :=
  let s := { s with running := false, startedAt := none }
  if s.mode = Mode.focus then
    { s with
      sessions := s.sessions + 1
      dailySessions := s.dailySessions + 1
      mode := .short
      timeLeft := (MODES .short).duration }
  else
    { s with mode := .focus, timeLeft := (MODES .focus).duration }

/-- Embedding of `switchMode` (lines 159-166): stop running, clear `startedAtRef` (and
only `startedAtRef`), set the new mode and its full duration. -/
def switchMode (s : TimerState) (m : Mode) : TimerState :=
  { s with
    running := false
    startedAt := none
    mode := m
    timeLeft := (MODES m).duration }

/-- The reset button handler (lines 312-318): stop running, clear
`startedAtRef`, reload the current mode's full duration. -/
def reset (s : TimerState) : TimerState :=
  { s with
    running := false
    startedAt := none
    timeLeft := (MODES s.mode).duration }

/-- The main timer effect's anchor snapshot (lines 169-175): when `running`
and `startedAtRef` is null, record `startedAt = now` and snapshot
`remainingAtStart = timeLeft`. -/
def runTimerEffect (s : TimerState) (now : ℚ) : TimerState :=
  if s.running = true ∧ s.startedAt = none then
    { s with startedAt := some now, remainingAtStart := some s.timeLeft }
  else s

/-- The start/resume half of the start-pause button (lines 296-301) followed
by the timer effect that reacts to `running` becoming true: `setRunning`
flips `running` to true and the effect establishes the anchor. -/
def start (s : TimerState) (now : ℚ) : TimerState :=
  if s.running = true then s
  else runTimerEffect { s with running := true } now

/-- The pause half of the start-pause button (lines 296-301): when running,
null out `startedAtRef` (the snapshot; `remainingAtStart` is untouched) and
flip `running` to false. -/
def pause (s : TimerState) : TimerState :=
  if s.running = true then { s with running := false, startedAt := none }
  else s

/-- One clock recomputation (lines 177-187, identical body at 197-208):
derive `remaining` from the anchor; at 0 report `timeLeft = 0` and run
`finishSession`, otherwise display `Math.ceil remaining`.  The guard mirrors
`onVisible`'s `!running || startedAtRef.current === null` early return
(line 199); the interval callback needs no such guard only because the
interval exists exactly while `running` is true and the anchor is set.
Returns the new state and whether expiry fired. -/
def tickOnce (s : TimerState) (now : ℚ) : TimerState × Bool :=
  if s.running = true then
    match s.startedAt, s.remainingAtStart with
    | some t0, some r0 =>
      let remaining := remainingAt t0 r0 now
      if remaining ≤ 0 then (finishSession { s with timeLeft := 0 }, true)
      else ({ s with timeLeft := (⌈remaining⌉).toNat }, false)
    | _, _ => (s, false)
  else (s, false)

/-- A sequence of clock recomputations at the given instants, counting how
many of them fired expiry. -/
def runTicks (s : TimerState) : List ℚ → TimerState × Nat
  | [] => (s, 0)
  | now :: rest =>
    let step := tickOnce s now
    let tail := runTicks step.1 rest
    (tail.1, (if step.2 then 1 else 0) + tail.2)

/-! ### Bell manager (`createBellManager`, lines 46-74)

The browser's timer registry is made explicit: each `setInterval` /
`setTimeout` call registers a fresh handle and returns its id, and
`clearInterval` / `clearTimeout` deregisters the id they are given (a no-op
on `null`).  `alertLoops` is the set of ids of live 4-second bell-repetition
intervals; `stopTimeouts` the set of live 60-second auto-stop timeouts;
`intervalId` / `timeoutId` are the manager's two module-level variables. -/

/-- State of the bell manager together with the host's live timer handles. -/
structure BellState where
  alertLoops : List Nat
  stopTimeouts : List Nat
  intervalId : Option Nat
  timeoutId : Option Nat
  nextId : Nat
deriving DecidableEq

/-- Manager state at module load (lines 47-49): no live timers, both
variables null. -/
def bellInit : BellState :=
  { alertLoops := [], stopTimeouts := [], intervalId := none,
    timeoutId := none, nextId := 0 }

/-- The manager's `start()` (lines 56-64): strike immediately (no timer state), register a
new 4-second repetition interval and a new 60-second auto-stop timeout, and
overwrite `intervalId` / `timeoutId` with the fresh handles.  Note the source
does not clear any previously registered handles. -/
def bellStart (b : BellState) : BellState :=
  { alertLoops := b.nextId :: b.alertLoops
    stopTimeouts := (b.nextId + 1) :: b.stopTimeouts
    intervalId := some b.nextId
    timeoutId := some (b.nextId + 1)
    nextId := b.nextId + 2 }

/-- The manager's `stop()` (lines 66-71): `clearInterval(intervalId)`,
`clearTimeout(timeoutId)`, then null both variables.  Only the handles the
two variables currently hold are deregistered. -/
def bellStop (b : BellState) : BellState :=
  { alertLoops := b.alertLoops.filter (fun i => b.intervalId ≠ some i)
    stopTimeouts := b.stopTimeouts.filter (fun i => b.timeoutId ≠ some i)
    intervalId := none
    timeoutId := none
    nextId := b.nextId }

/-! ### Persistence (`loadTodaySessions` / `saveTodaySessions`, lines 84-93)

The `window.storage` collaborator is modelled by its observable outcomes: a
read either succeeds with the stored value (already parsed, as `Number` does)
or its absence, or throws; a write either succeeds or throws.  The store
itself is the `Option ℤ` held under today's key. -/

/-- Outcome of one `window.storage.set` call. -/
inductive StoreResult
  | success
  | failure
deriving DecidableEq

/-- Embedding of `loadTodaySessions` (lines 84-89): `res ? Number(res.value) : 0` inside
`try`, `catch { return 0 }`. -/
def loadTodaySessions : Except Unit (Option ℤ) → ℤ
  | .ok (some v) => v
  | .ok none => 0
  | .error _ => 0

/-- Embedding of `saveTodaySessions` (lines 91-93) acting on the store under today's key:
a successful `set` replaces the value, a throwing one is swallowed by the
empty `catch` and leaves the store as it was. -/
def saveTodaySessions (w : StoreResult) (store : Option ℤ) (n : ℤ) :
    Option ℤ :=
  match w with
  | .success => some n
  | .failure => store

/-- The composite of `finishSession` with its fire-and-forget persistence write
(lines 145-149): the in-memory update is `finishSession`; on focus expiry the
new daily count is additionally written to the store, with outcome `w`; on
break expiry nothing is written. -/
def finishSessionStore (w : StoreResult) (s : TimerState)
    (store : Option ℤ) : TimerState × Option ℤ :=
  (finishSession s,
    if s.mode = Mode.focus then
      saveTodaySessions w store ((s.dailySessions : ℤ) + 1)
    else store)

/-! ### Derived notions and concrete states used below -/

/-- The strong anchor invariant claimed by the spec: `startedAt` and
`remainingAtStart` are both set or both unset. -/
def anchorAgree (s : TimerState) : Prop :=
  (s.startedAt = none ∧ s.remainingAtStart = none) ∨
    (s.startedAt ≠ none ∧ s.remainingAtStart ≠ none)

/-- The weaker anchor invariant the code actually maintains: whenever
`startedAt` is set, `remainingAtStart` is set. -/
def anchorWeakInv (s : TimerState) : Prop :=
  s.startedAt ≠ none → s.remainingAtStart ≠ none

/-- A cleared anchor in the spec's sense: both halves of the
`(startedAt, remainingAtStart)` pair are unset. -/
def anchorCleared (s : TimerState) : Prop :=
  s.startedAt = none ∧ s.remainingAtStart = none

/-- The state reached by pressing start on the fresh component at `t = 0`:
focus mode, running, anchored at `(0, 1500)`. -/
def runAnchored : TimerState :=
  { mode := .focus, timeLeft := 1500, running := true, startedAt := some 0,
    remainingAtStart := some 1500, sessions := 0, dailySessions := 0 }

/-- A mid-run state: 10 s into a focus run, the display shows 1490. -/
def midRun : TimerState :=
  { mode := .focus, timeLeft := 1490, running := true, startedAt := some 0,
    remainingAtStart := some 1500, sessions := 0, dailySessions := 0 }

/-- A running state one displayed second from expiry. -/
def oneSecondRun : TimerState :=
  { mode := .focus, timeLeft := 1, running := true, startedAt := some 0,
    remainingAtStart := some 1, sessions := 0, dailySessions := 0 }

/-! ### Helper lemmas -/

/-- A recomputation on a non-running state changes nothing and fires no
expiry (the interval does not exist, and `onVisible` returns early). -/
theorem tickOnce_of_not_running (s : TimerState) (now : ℚ)
    (h : s.running = false) : tickOnce s now = (s, false) := by
  simp [tickOnce, h]

/-- Expiry always leaves the timer stopped. -/
theorem finishSession_running (s : TimerState) :
    (finishSession s).running = false := by
  simp only [finishSession]
  split <;> rfl

/-- Expiry always leaves `startedAt` cleared. -/
theorem finishSession_startedAt (s : TimerState) :
    (finishSession s).startedAt = none := by
  simp only [finishSession]
  split <;> rfl

/-- A non-running state absorbs any sequence of recomputations without
firing expiry. -/
theorem runTicks_of_not_running (s : TimerState) (l : List ℚ)
    (h : s.running = false) : runTicks s l = (s, 0) := by
  induction l with
  | nil => rfl
  | cons now rest ih => simp [runTicks, tickOnce_of_not_running s now h, ih]

/-- Case analysis for one recomputation: either expiry fired and the result
is `finishSession` of the zeroed state, or only `timeLeft` may have changed
(anchor and counters are untouched). -/
theorem tickOnce_fst_cases (s : TimerState) (now : ℚ) :
    (tickOnce s now).1 = finishSession { s with timeLeft := 0 } ∨
    ((tickOnce s now).1.startedAt = s.startedAt ∧
     (tickOnce s now).1.remainingAtStart = s.remainingAtStart ∧
     (tickOnce s now).1.sessions = s.sessions ∧
     (tickOnce s now).1.dailySessions = s.dailySessions) := by
  unfold tickOnce
  split
  · split
    · dsimp only
      split
      · left; rfl
      · right; exact ⟨rfl, rfl, rfl, rfl⟩
    · right; exact ⟨rfl, rfl, rfl, rfl⟩
  · right; exact ⟨rfl, rfl, rfl, rfl⟩

/-- Expiry increments both counters by one exactly when the expiring mode
was focus. -/
theorem finishSession_counters (s : TimerState) :
    (finishSession s).sessions =
      s.sessions + (if s.mode = Mode.focus then 1 else 0) ∧
    (finishSession s).dailySessions =
      s.dailySessions + (if s.mode = Mode.focus then 1 else 0) := by
  simp only [finishSession]
  by_cases hm : s.mode = Mode.focus <;> simp [hm]

/-! ### Claims -/

/-- C1.  When the running countdown reaches zero, the tick fires expiry and
the timer stops; if the expiring mode was focus, both session counters grow
by exactly 1, the mode becomes the short break and `timeLeft` becomes 300;
if the expiring mode was a break, the counters are unchanged, the mode
becomes focus and `timeLeft` becomes 1500. -/
theorem tick_expiry_transition (s : TimerState) (t0 : ℚ) (r0 : Nat) (now : ℚ)
    (hrun : s.running = true) (ht : s.startedAt = some t0)
    (hr : s.remainingAtStart = some r0)
    (hz : remainingAt t0 r0 now ≤ 0) :
    (tickOnce s now).2 = true ∧
    (tickOnce s now).1.running = false ∧
    (s.mode = Mode.focus →
      (tickOnce s now).1.sessions = s.sessions + 1 ∧
      (tickOnce s now).1.dailySessions = s.dailySessions + 1 ∧
      (tickOnce s now).1.mode = Mode.short ∧
      (tickOnce s now).1.timeLeft = 300) ∧
    (s.mode ≠ Mode.focus →
      (tickOnce s now).1.sessions = s.sessions ∧
      (tickOnce s now).1.dailySessions = s.dailySessions ∧
      (tickOnce s now).1.mode = Mode.focus ∧
      (tickOnce s now).1.timeLeft = 1500) := by
  simp only [tickOnce, hrun, ht, hr, if_true, hz, if_pos]
  by_cases hm : s.mode = Mode.focus <;>
    simp [finishSession, hm, MODES]

/-- Witness for C1: the focus scenario of the spec, a run anchored at
`(0, 1500)` ticked at `t = 1500`. -/
theorem tick_expiry_transition_witness :
    (tickOnce runAnchored 1500).2 = true ∧
    (tickOnce runAnchored 1500).1.running = false ∧
    (runAnchored.mode = Mode.focus →
      (tickOnce runAnchored 1500).1.sessions = runAnchored.sessions + 1 ∧
      (tickOnce runAnchored 1500).1.dailySessions =
        runAnchored.dailySessions + 1 ∧
      (tickOnce runAnchored 1500).1.mode = Mode.short ∧
      (tickOnce runAnchored 1500).1.timeLeft = 300) ∧
    (runAnchored.mode ≠ Mode.focus →
      (tickOnce runAnchored 1500).1.sessions = runAnchored.sessions ∧
      (tickOnce runAnchored 1500).1.dailySessions =
        runAnchored.dailySessions ∧
      (tickOnce runAnchored 1500).1.mode = Mode.focus ∧
      (tickOnce runAnchored 1500).1.timeLeft = 1500) :=
  tick_expiry_transition runAnchored 0 1500 1500 rfl rfl rfl
    (by norm_num [remainingAt])

/-- C2.  While running with anchor `(t0, r0)`, at any later instant the
recomputed remaining time is `max (r0 - (now - t0)) 0`, never negative;
whenever it is positive the tick displays its ceiling (a positive number of
seconds), and the tick reports no expiry exactly as long as it is
positive. -/
theorem tick_display_ceiling (s : TimerState) (t0 : ℚ) (r0 : Nat) (now : ℚ)
    (hrun : s.running = true) (ht : s.startedAt = some t0)
    (hr : s.remainingAtStart = some r0) (hnow : t0 ≤ now) :
    0 ≤ remainingAt t0 r0 now ∧
    ((tickOnce s now).2 = false ↔ 0 < remainingAt t0 r0 now) ∧
    (0 < remainingAt t0 r0 now →
      (tickOnce s now).1.timeLeft = (⌈remainingAt t0 r0 now⌉).toNat ∧
      0 < (tickOnce s now).1.timeLeft) := by
  have h0 : 0 ≤ remainingAt t0 r0 now := le_max_right _ _
  refine ⟨h0, ?_, ?_⟩
  · by_cases hz : remainingAt t0 r0 now ≤ 0
    · have he : remainingAt t0 r0 now = 0 := le_antisymm hz h0
      simp [tickOnce, hrun, ht, hr, hz, he]
    · have hpos : 0 < remainingAt t0 r0 now := not_le.mp hz
      simp [tickOnce, hrun, ht, hr, hz, hpos]
  · intro hpos
    have hz : ¬ remainingAt t0 r0 now ≤ 0 := not_le.mpr hpos
    have hc : (0 : ℤ) < ⌈remainingAt t0 r0 now⌉ := Int.ceil_pos.mpr hpos
    have heq : (tickOnce s now).1.timeLeft = (⌈remainingAt t0 r0 now⌉).toNat := by
      simp [tickOnce, hrun, ht, hr, hz]
    refine ⟨heq, ?_⟩
    rw [heq]
    omega

/-- Witness for C2: the anchored run observed 10 s in still has 1490 s
remaining and displays its ceiling. -/
theorem tick_display_ceiling_witness :
    0 ≤ remainingAt 0 1500 10 ∧
    ((tickOnce runAnchored 10).2 = false ↔ 0 < remainingAt 0 1500 10) ∧
    (0 < remainingAt 0 1500 10 →
      (tickOnce runAnchored 10).1.timeLeft = (⌈remainingAt 0 1500 10⌉).toNat ∧
      0 < (tickOnce runAnchored 10).1.timeLeft) :=
  tick_display_ceiling runAnchored 0 1500 10 rfl rfl rfl (by norm_num)

/-- C3 counterexample.  Pausing the freshly started timer leaves
`startedAt` unset but `remainingAtStart` still `some 1500`: pause does not
clear both halves of the anchor, so the both-set-or-both-unset invariant
fails after the very first pause. -/
theorem pause_anchor_counterexample :
    ¬ anchorAgree (pause (start initState 0)) ∧
    (pause (start initState 0)).remainingAtStart = some 1500 := by
  constructor
  · simp [anchorAgree, pause, start, runTimerEffect, initState, MODES]
  · simp [pause, start, runTimerEffect, initState, MODES]

/-- C3 as amended.  Every operation preserves the weaker invariant that
whenever `startedAt` is set, `remainingAtStart` is set; and pause clears
only `startedAt`, leaving `remainingAtStart` untouched (it is re-snapshotted
on the next start). -/
theorem anchor_invariant_amended (s : TimerState) (now : ℚ) (m : Mode)
    (h : anchorWeakInv s) :
    anchorWeakInv (start s now) ∧ anchorWeakInv (pause s) ∧
    anchorWeakInv (reset s) ∧ anchorWeakInv (switchMode s m) ∧
    anchorWeakInv (tickOnce s now).1 ∧ anchorWeakInv (finishSession s) ∧
    (s.running = true →
      (pause s).startedAt = none ∧
      (pause s).remainingAtStart = s.remainingAtStart) := by
  refine ⟨?_, ?_, ?_, ?_, ?_, ?_, ?_⟩
  · unfold anchorWeakInv start runTimerEffect at *
    by_cases hrun : s.running = true
    · simp [hrun]; exact h
    · by_cases ha : s.startedAt = none
      · simp [hrun, ha]
      · simp [hrun, ha]; exact h ha
  · unfold anchorWeakInv pause at *
    by_cases hrun : s.running = true
    · simp [hrun]
    · simp [hrun]; exact h
  · simp [anchorWeakInv, reset]
  · simp [anchorWeakInv, switchMode]
  · rcases tickOnce_fst_cases s now with hc | ⟨h1, h2, _, _⟩
    · intro hs
      rw [hc] at hs
      exact absurd (finishSession_startedAt _) hs
    · intro hs
      rw [h2]
      exact h (h1 ▸ hs)
  · intro hs
    exact absurd (finishSession_startedAt s) hs
  · intro hrun
    simp [pause, hrun]

/-- Witness for the amended C3, at the initial state. -/
theorem anchor_invariant_amended_witness :
    anchorWeakInv (start initState 0) ∧ anchorWeakInv (pause initState) ∧
    anchorWeakInv (reset initState) ∧
    anchorWeakInv (switchMode initState Mode.long) ∧
    anchorWeakInv (tickOnce initState 0).1 ∧
    anchorWeakInv (finishSession initState) ∧
    (initState.running = true →
      (pause initState).startedAt = none ∧
      (pause initState).remainingAtStart = initState.remainingAtStart) :=
  anchor_invariant_amended initState 0 Mode.long
    (by simp [anchorWeakInv, initState])

/-- C4.  Calling the bell manager's `start()` while an alert loop is already
live does NOT cancel the previous loop: after two consecutive `start()`
calls two repetition intervals are live simultaneously, and even `stop()`
removes only the most recent one — the first loop (handle 0) survives and
can never be cancelled. -/
theorem bell_double_start_overlap :
    (bellStart (bellStart bellInit)).alertLoops.length = 2 ∧
    (bellStop (bellStart (bellStart bellInit))).alertLoops = [0] := by
  constructor <;> rfl

/-- C5.  Pausing a running timer and starting again establishes a fresh
anchor whose `remainingAtStart` is the currently displayed `timeLeft` (which
pause did not change) and whose `startedAt` is the resume instant. -/
theorem resume_reanchors_displayed (s : TimerState) (now : ℚ)
    (h : s.running = true) :
    (start (pause s) now).remainingAtStart = some s.timeLeft ∧
    (start (pause s) now).startedAt = some now ∧
    (start (pause s) now).running = true ∧
    (pause s).timeLeft = s.timeLeft := by
  simp [pause, h, start, runTimerEffect]

/-- Witness for C5: the spec scenario — paused at a displayed 1490, the
resume re-anchors at 1490, not 1500. -/
theorem resume_reanchors_displayed_witness :
    (start (pause midRun) 11).remainingAtStart = some midRun.timeLeft ∧
    (start (pause midRun) 11).startedAt = some 11 ∧
    (start (pause midRun) 11).running = true ∧
    (pause midRun).timeLeft = midRun.timeLeft :=
  resume_reanchors_displayed midRun 11 rfl

/-- C6.  A run that reaches zero remaining time fires expiry exactly once:
over the whole tick sequence starting with the expiring tick, the number of
expiry firings is 1, however many ticks follow. -/
theorem expiry_fires_once (s : TimerState) (t0 : ℚ) (r0 : Nat) (now : ℚ)
    (rest : List ℚ)
    (hrun : s.running = true) (ht : s.startedAt = some t0)
    (hr : s.remainingAtStart = some r0)
    (hz : remainingAt t0 r0 now ≤ 0) :
    (runTicks s (now :: rest)).2 = 1 := by
  have hstep : tickOnce s now = (finishSession { s with timeLeft := 0 }, true) := by
    simp [tickOnce, hrun, ht, hr, hz]
  have hstop : (finishSession { s with timeLeft := 0 }).running = false :=
    finishSession_running _
  simp [runTicks, hstep, runTicks_of_not_running _ rest hstop]

/-- Witness for C6: starting from one remaining second, ticks at 1, 2 and 3
seconds produce exactly one expiry. -/
theorem expiry_fires_once_witness :
    (runTicks oneSecondRun [1, 2, 3]).2 = 1 :=
  expiry_fires_once oneSecondRun 0 1 1 [2, 3] rfl rfl rfl
    (by norm_num [remainingAt])

/-- C7 counterexample.  Switching mode on a previously started timer does
not yield a fully cleared anchor: `remainingAtStart` keeps its stale
snapshot, so the claim's conjunction fails at this concrete input. -/
theorem switchMode_anchor_counterexample :
    ¬ ((switchMode (start initState 0) Mode.long).mode = Mode.long ∧
       (switchMode (start initState 0) Mode.long).timeLeft =
         (MODES Mode.long).duration ∧
       (switchMode (start initState 0) Mode.long).running = false ∧
       anchorCleared (switchMode (start initState 0) Mode.long)) := by
  simp [switchMode, start, runTimerEffect, initState, anchorCleared, MODES]

/-- C7 as amended.  For every prior state and every mode (including the
current one), `switchMode` yields that mode, its full duration, a stopped
timer and a cleared `startedAt`, never auto-starting; `remainingAtStart`
is left unchanged rather than cleared. -/
theorem switchMode_spec_amended (s : TimerState) (m : Mode) :
    (switchMode s m).mode = m ∧
    (switchMode s m).timeLeft = (MODES m).duration ∧
    (switchMode s m).running = false ∧
    (switchMode s m).startedAt = none ∧
    (switchMode s m).remainingAtStart = s.remainingAtStart := by
  simp [switchMode]

/-- C8 counterexample.  Resetting a previously started timer does not yield
a fully cleared anchor: `remainingAtStart` keeps its stale snapshot, so the
claim's conjunction fails at this concrete input. -/
theorem reset_anchor_counterexample :
    ¬ ((reset (start initState 0)).running = false ∧
       (reset (start initState 0)).timeLeft =
         (MODES (reset (start initState 0)).mode).duration ∧
       (reset (start initState 0)).mode = (start initState 0).mode ∧
       anchorCleared (reset (start initState 0))) := by
  simp [reset, start, runTimerEffect, initState, anchorCleared, MODES]

/-- C8 as amended.  For every prior state, `reset` yields a stopped timer, a
cleared `startedAt` and the current mode's full duration, leaving the mode
unchanged; `remainingAtStart` is left unchanged rather than cleared. -/
theorem reset_spec_amended (s : TimerState) :
    (reset s).running = false ∧
    (reset s).startedAt = none ∧
    (reset s).timeLeft = (MODES s.mode).duration ∧
    (reset s).mode = s.mode ∧
    (reset s).remainingAtStart = s.remainingAtStart := by
  simp [reset]

/-- C9.  Persistence failures are never surfaced: a read that finds nothing
or throws yields 0, a failed write leaves the store as it was, and the
in-memory state produced by expiry is the same whatever the write outcome
was. -/
theorem persistence_best_effort :
    loadTodaySessions (.ok none) = 0 ∧
    loadTodaySessions (.error ()) = 0 ∧
    (∀ (s : TimerState) (store : Option ℤ),
      finishSessionStore .failure s store = (finishSession s, store)) ∧
    (∀ (w : StoreResult) (s : TimerState) (store : Option ℤ),
      (finishSessionStore w s store).1 = finishSession s) := by
  refine ⟨rfl, rfl, ?_, ?_⟩
  · intro s store
    unfold finishSessionStore saveTodaySessions
    split <;> rfl
  · intro w s store
    rfl

/-- C10.  Start, pause, reset and mode switches never change either session
counter; expiry adds 1 to both exactly when the expiring mode was focus, and
a tick never decreases either counter — so both counters are non-decreasing
over the process lifetime. -/
theorem counters_frame_monotone (s : TimerState) (now : ℚ) (m : Mode) :
    (start s now).sessions = s.sessions ∧
    (start s now).dailySessions = s.dailySessions ∧
    (pause s).sessions = s.sessions ∧
    (pause s).dailySessions = s.dailySessions ∧
    (reset s).sessions = s.sessions ∧
    (reset s).dailySessions = s.dailySessions ∧
    (switchMode s m).sessions = s.sessions ∧
    (switchMode s m).dailySessions = s.dailySessions ∧
    (finishSession s).sessions =
      s.sessions + (if s.mode = Mode.focus then 1 else 0) ∧
    (finishSession s).dailySessions =
      s.dailySessions + (if s.mode = Mode.focus then 1 else 0) ∧
    s.sessions ≤ (tickOnce s now).1.sessions ∧
    s.dailySessions ≤ (tickOnce s now).1.dailySessions := by
  refine ⟨?_, ?_, ?_, ?_, ?_, ?_, ?_, ?_, ?_, ?_, ?_, ?_⟩
  · unfold start runTimerEffect
    split <;> try rfl
    split <;> rfl
  · unfold start runTimerEffect
    split <;> try rfl
    split <;> rfl
  · unfold pause; split <;> rfl
  · unfold pause; split <;> rfl
  · rfl
  · rfl
  · rfl
  · rfl
  · exact (finishSession_counters s).1
  · exact (finishSession_counters s).2
  · rcases tickOnce_fst_cases s now with hc | ⟨_, _, h3, _⟩
    · rw [hc, (finishSession_counters _).1]
      exact Nat.le_add_right _ _
    · rw [h3]
  · rcases tickOnce_fst_cases s now with hc | ⟨_, _, _, h4⟩
    · rw [hc, (finishSession_counters _).2]
      exact Nat.le_add_right _ _
    · rw [h4]

end Pomodoro
